import Mathlib

/-!
Verification development for the mm_json single-header JSON tokenizer
(src/mm_json.h).  Shallow embedding conventions:

* a byte is a `Nat` in 0..255; a C byte buffer is a `List Nat`;
* a C pointer into a buffer is modelled as the suffix of the buffer that
  starts at the pointed-to position; a NULL pointer is `Option.none`;
  pointer subtraction `p - q` (with `q` an earlier pointer into the same
  buffer) becomes `q.length - p.length`;
* C `int` fields are `Int`; the `unsigned` depth counter wraps mod 2^32;
* `json_number` (C `double`) is modelled as `ℚ`; all numeric claims in
  this file concern only the returned kind or small integer values, for
  which the C double arithmetic is exact, so the idealisation is harmless;
* loops are given explicit fuel and return `Option` (`none` = fuel ran
  out); the fuel supplied by the wrappers is large enough for every run
  appearing in a theorem, and an `Option.none` result can never be
  mistaken for a C result;
* reading one byte past a buffer (C undefined behaviour) is modelled as
  reading the byte 0, and the C expression `cur - NULL` (undefined) is
  modelled as the value -1; both only arise on garbage tokens of kind
  `JSON_NONE` and are never load-bearing in any claim.
-/

/-- enum json_token_type from mm_json.h. -/
inductive json_token_type where
  | JSON_NONE | JSON_OBJECT | JSON_ARRAY | JSON_NUMBER
  | JSON_STRING | JSON_TRUE | JSON_FALSE | JSON_NULL
deriving DecidableEq

/-- struct json_token: type, borrowed byte range (suffix + length),
direct-children count and total-subtoken count. -/
structure json_token where
  type : json_token_type
  str : Option (List Nat)
  len : Int
  children : Int
  sub : Int
deriving DecidableEq

/-- JSON_TOKEN_NULL: the all-zero token. -/
def JSON_TOKEN_NULL : json_token := ⟨.JSON_NONE, none, 0, 0, 0⟩

/-- Which of the five tokenizer jump tables iter.go points at. -/
inductive gotable where
  | tstruct | tbare | tstring | tutf8 | tesc
deriving DecidableEq

/-- struct json_iter: remaining length, error flag, nesting depth,
current jump table (none = not started), remaining source (none = NULL). -/
structure json_iter where
  len : Nat
  err : Bool
  depth : Nat
  go : Option gotable
  src : Option (List Nat)
deriving DecidableEq

/-- JSON_ITER_NULL: the all-zero iterator. -/
def JSON_ITER_NULL : json_iter := ⟨0, false, 0, none, none⟩

/-- enum json_status. -/
inductive json_status where
  | JSON_OK | JSON_INVAL | JSON_OUT_OF_TOKEN | JSON_PARSING_ERROR
deriving DecidableEq

/-- States of the main parsing DFA (enum json_parser_states). -/
inductive pstate where
  | FAILED | LOOP | SEP | UP | DOWN | QUP | QDOWN | ESC | UNESC
  | BARE | UNBARE | UTF8_2 | UTF8_3 | UTF8_4 | UTF8_NEXT
deriving DecidableEq

/-- States of the number-conversion DFA (enum json_nuber_states). -/
inductive nstate where
  | NUM_FAILED | NUM_LOOP | NUM_FLT | NUM_EXP | NUM_BREAK
deriving DecidableEq

/-- json_go_struct table: populated entries of the 256-byte table set up
by json_init; unpopulated entries are JSON_STATE_FAILED (= 0). -/
def json_go_struct (c : Nat) : pstate :=
  if 48 ≤ c ∧ c ≤ 57 then .BARE          -- digits
  else if c = 9 ∨ c = 13 ∨ c = 10 ∨ c = 32 then .LOOP  -- whitespace
  else if c = 34 then .QUP               -- quote
  else if c = 58 ∨ c = 61 then .SEP      -- colon, equals
  else if c = 44 then .LOOP              -- comma
  else if c = 91 ∨ c = 123 then .UP      -- open bracket / brace
  else if c = 93 ∨ c = 125 then .DOWN    -- close bracket / brace
  else if c = 45 ∨ c = 116 ∨ c = 102 ∨ c = 110 then .BARE  -- minus t f n
  else .FAILED

/-- json_go_bare table: printable ASCII loops, the six terminators end
the bare run (the terminators are written into the table after the
32..126 fill, so they win). -/
def json_go_bare (c : Nat) : pstate :=
  if c = 9 ∨ c = 13 ∨ c = 10 ∨ c = 44 ∨ c = 93 ∨ c = 125 then .UNBARE
  else if 32 ≤ c ∧ c ≤ 126 then .LOOP
  else .FAILED

/-- json_go_string table: backslash and quote are written after the
32..126 fill, so they win; UTF-8 lead bytes get continuation counts. -/
def json_go_string (c : Nat) : pstate :=
  if c = 92 then .ESC
  else if c = 34 then .QDOWN
  else if 32 ≤ c ∧ c ≤ 126 then .LOOP
  else if 192 ≤ c ∧ c ≤ 223 then .UTF8_2
  else if 224 ≤ c ∧ c ≤ 239 then .UTF8_3
  else if 240 ≤ c ∧ c ≤ 247 then .UTF8_4
  else .FAILED

/-- json_go_utf8 table: continuation bytes only. -/
def json_go_utf8 (c : Nat) : pstate :=
  if 128 ≤ c ∧ c ≤ 191 then .UTF8_NEXT else .FAILED

/-- json_go_esc table: the nine bytes that may follow a backslash. -/
def json_go_esc (c : Nat) : pstate :=
  if c = 34 ∨ c = 92 ∨ c = 47 ∨ c = 98 ∨ c = 102 ∨ c = 110 ∨
     c = 114 ∨ c = 116 ∨ c = 117 then .UNESC
  else .FAILED

/-- json_go_num table.  Digits are assigned JSON_STATE_LOOP in the C
source, whose numeric value 1 coincides with JSON_STATE_NUM_LOOP, so the
conversion loop treats them as NUM_LOOP; the model uses NUM_LOOP directly. -/
def json_go_num (c : Nat) : nstate :=
  if 48 ≤ c ∧ c ≤ 57 then .NUM_LOOP
  else if c = 45 ∨ c = 43 then .NUM_LOOP
  else if c = 46 then .NUM_FLT
  else if c = 101 ∨ c = 69 then .NUM_EXP
  else if c = 32 ∨ c = 10 ∨ c = 9 ∨ c = 13 then .NUM_BREAK
  else .NUM_FAILED

/-- Dispatch on the jump-table pointer held in the iterator. -/
def golook : gotable → Nat → pstate
  | .tstruct, c => json_go_struct c
  | .tbare, c => json_go_bare c
  | .tstring, c => json_go_string c
  | .tutf8, c => json_go_utf8 c
  | .tesc, c => json_go_esc c

/-- Increment of the unsigned depth counter (wraps mod 2^32). -/
def dinc (d : Nat) : Nat := (d + 1) % 4294967296

/-- Decrement of the unsigned depth counter (wraps mod 2^32). -/
def ddec (d : Nat) : Nat := (d + 4294967295) % 4294967296

/-- json_type: infer the token type from its first byte. -/
def json_type (tok : json_token) : json_token_type :=
  match tok.str with
  | none => .JSON_NONE
  | some s =>
    if tok.len = 0 then .JSON_NONE
    else if s.headD 0 = 123 then .JSON_OBJECT
    else if s.headD 0 = 91 then .JSON_ARRAY
    else if s.headD 0 = 34 then .JSON_STRING
    else if s.headD 0 = 116 then .JSON_TRUE
    else if s.headD 0 = 102 then .JSON_FALSE
    else if s.headD 0 = 110 then .JSON_NULL
    else .JSON_NUMBER

/-- json_deq: strip the surrounding quotes from a string token. -/
def json_deq (tok : json_token) : json_token :=
  match tok.str with
  | some s =>
    if s.headD 0 = 34 ∧ 2 ≤ tok.len then
      { tok with str := some s.tail, len := tok.len - 2 }
    else tok
  | none => tok

/-- The l_yield label of json_read: finalize the token type, dequote
strings, advance the iterator past the current byte. -/
def json_yield (go : gotable) (depth : Nat) (obj : json_token)
    (cur : List Nat) (len : Nat) : json_token × json_iter :=
  let t := json_type obj
  let obj := { obj with type := t }
  let obj := if t = .JSON_STRING then json_deq obj else obj
  (obj, ⟨len - 1, false, depth, some go, some cur.tail⟩)

/-- The l_end label of json_read: at depth 0 finalize any in-flight
token (shortening by one byte when the last byte read was a closing
brace) and return an exhausted iterator; at non-zero depth return the
iterator with its original src and len but updated go and depth. -/
def json_read_end (src0 : Option (List Nat)) (len0 : Nat) (go : gotable)
    (depth : Nat) (obj : json_token) (cur : List Nat) (c : Nat) :
    json_token × json_iter :=
  if depth = 0 then
    let obj :=
      match obj.str with
      | none => obj
      | some s =>
        let d : Int := (s.length : Int) - (cur.length : Int)
        let obj := { obj with len := if c = 125 then d - 1 else d }
        let obj := { obj with type := json_type obj }
        if obj.type = .JSON_STRING then json_deq obj else obj
    (obj, ⟨0, false, depth, some go, none⟩)
  else (obj, ⟨len0, false, depth, some go, src0⟩)

/-- The byte-consuming loop of json_read.  Arguments: fuel; the
iterator's original src and len (returned unchanged on error and on the
non-zero-depth end path); current table, depth, utf8 continuation
counter (C int, may be decremented from 0), in-flight token; current
position (suffix) and remaining length; the previously read byte (the C
variable c as left by the previous iteration). -/
def json_read_go : Nat → Option (List Nat) → Nat → gotable → Nat → Int →
    json_token → List Nat → Nat → Nat → Option (json_token × json_iter)
  | 0, _, _, _, _, _, _, _, _, _ => none
  | fuel+1, src0, len0, go, depth, utf8, obj, cur, len, cp =>
    if len = 0 then some (json_read_end src0 len0 go depth obj cur cp)
    else
      let c := cur.headD 0
      if c = 0 then some (json_read_end src0 len0 go depth obj cur 0)
      else if depth = 1 ∧ (c = 125 ∨ c = 93) ∧ len = 1 ∧ obj.str = none then
        some (obj, ⟨0, false, 0, some go, none⟩)
      else
        match golook go c with
        | .FAILED => some (obj, ⟨len0, true, depth, some go, src0⟩)
        | .LOOP => json_read_go fuel src0 len0 go depth utf8 obj cur.tail (len-1) c
        | .SEP =>
          let obj := if depth = 2 then { obj with children := obj.children - 1 } else obj
          json_read_go fuel src0 len0 go depth utf8 obj cur.tail (len-1) c
        | .UP =>
          let obj :=
            if 1 < depth then
              { obj with children := if depth = 2 then obj.children + 1 else obj.children,
                         sub := obj.sub + 1 }
            else obj
          let obj := if depth = 1 then { obj with str := some cur } else obj
          json_read_go fuel src0 len0 go (dinc depth) utf8 obj cur.tail (len-1) c
        | .DOWN =>
          let depth := ddec depth
          if depth = 1 then
            match obj.str with
            | none =>
              json_read_go fuel src0 len0 go depth utf8 { obj with len := -1 } cur.tail (len-1) c
            | some s =>
              let obj := { obj with len := (s.length : Int) - (cur.length : Int) + 1 }
              some (json_yield go depth obj cur len)
          else json_read_go fuel src0 len0 go depth utf8 obj cur.tail (len-1) c
        | .QUP =>
          let obj :=
            if depth ≤ 1 then { obj with str := some cur }
            else
              { obj with children := if depth = 2 then obj.children + 1 else obj.children,
                         sub := obj.sub + 1 }
          json_read_go fuel src0 len0 .tstring depth utf8 obj cur.tail (len-1) c
        | .QDOWN =>
          if depth ≤ 1 then
            match obj.str with
            | none =>
              json_read_go fuel src0 len0 .tstruct depth utf8 { obj with len := -1 } cur.tail (len-1) c
            | some s =>
              let obj := { obj with len := (s.length : Int) - (cur.length : Int) + 1 }
              some (json_yield .tstruct depth obj cur len)
          else json_read_go fuel src0 len0 .tstruct depth utf8 obj cur.tail (len-1) c
        | .ESC => json_read_go fuel src0 len0 .tesc depth utf8 obj cur.tail (len-1) c
        | .UNESC => json_read_go fuel src0 len0 .tstring depth utf8 obj cur.tail (len-1) c
        | .BARE =>
          let obj :=
            if depth ≤ 1 then { obj with str := some cur }
            else
              { obj with children := if depth = 2 then obj.children + 1 else obj.children,
                         sub := obj.sub + 1 }
          json_read_go fuel src0 len0 .tbare depth utf8 obj cur.tail (len-1) c
        | .UNBARE =>
          if depth ≤ 1 then
            let l : Int :=
              match obj.str with
              | some s => (s.length : Int) - (cur.length : Int)
              | none => -1
            let obj := { obj with len := l }
            let obj := { obj with type := json_type obj }
            let obj := if obj.type = .JSON_STRING then json_deq obj else obj
            some (obj, ⟨len, false, depth, some .tstruct, some cur⟩)
          else json_read_go fuel src0 len0 .tstruct depth utf8 obj cur len c
        | .UTF8_2 => json_read_go fuel src0 len0 .tutf8 depth 1 obj cur.tail (len-1) c
        | .UTF8_3 => json_read_go fuel src0 len0 .tutf8 depth 2 obj cur.tail (len-1) c
        | .UTF8_4 => json_read_go fuel src0 len0 .tutf8 depth 3 obj cur.tail (len-1) c
        | .UTF8_NEXT =>
          let utf8 := utf8 - 1
          if utf8 = 0 then
            json_read_go fuel src0 len0 .tstring depth utf8 obj cur.tail (len-1) c
          else json_read_go fuel src0 len0 go depth utf8 obj cur.tail (len-1) c

/-- json_begin: fresh iterator over a byte range. -/
def json_begin (str : List Nat) (len : Nat) : json_iter :=
  { JSON_ITER_NULL with src := some str, len := len }

/-- json_read: produce the next top-level token.  A null iterator
pointer, a null src, an exhausted length or a set error flag yield the
null token and an iterator with only the error flag set.  The fuel
2*len+2 dominates the loop measure (each step either consumes a byte or
switches the bare table back to the struct table). -/
def json_read (prev : Option json_iter) : Option (json_token × json_iter) :=
  match prev with
  | none => some (JSON_TOKEN_NULL, { JSON_ITER_NULL with err := true })
  | some p =>
    if p.src = none ∨ p.len = 0 ∨ p.err then
      some (JSON_TOKEN_NULL, { JSON_ITER_NULL with err := true })
    else
      json_read_go (2 * p.len + 2) p.src p.len (p.go.getD .tstruct) p.depth 0
        JSON_TOKEN_NULL (p.src.getD []) p.len 0

/-- The counting loop of json_num: while the previous read produced no
error, a live iterator and a token with a non-null str, accumulate
1 + tok.sub and read again. -/
def json_num_go : Nat → json_token → json_iter → Int → Option Int
  | 0, _, _, _ => none
  | fuel+1, tok, iter, count =>
    if iter.err = false ∧ iter.src.isSome ∧ tok.str.isSome then
      match json_read (some iter) with
      | none => none
      | some (tok', iter') => json_num_go fuel tok' iter' (count + 1 + tok.sub)
    else some count

/-- json_num: dry-run count of the tokens a document will flatten to.
(The C null-pointer check on json is not representable for a list; the
zero-length check is kept.) -/
def json_num (json : List Nat) (length : Nat) : Option Int :=
  if length = 0 then some 0
  else
    match json_read (some (json_begin json length)) with
    | none => none
    | some (tok, iter) => json_num_go (length + 2) tok iter 0

/-- Argument bundle distinguishing the two entry points of the json_load
recursion: a fresh call on a byte range, or the while (iter.len) loop
continuing after a read.  (The C source has two mutually recursive
pieces, the function and its loop; bundling them lets the model recurse
structurally on a single fuel counter.) -/
inductive load_args where
  | entry (json : List Nat) (length : Nat)
  | loop (tok : json_token) (iter : json_iter)

/-- The json_load recursion.  entry: null/empty checks, capacity check,
first read, then the loop.  loop: store the token, bounds-check the
incremented read index, recurse into container tokens on their own byte
range, then read the next token.  Returns status, final read index,
final array map and the ordered list of (index, token) writes. -/
def json_load_run : Nat → (Nat → json_token) → Nat → Nat → load_args →
    Option (json_status × Nat × (Nat → json_token) × List (Nat × json_token))
  | 0, _, _, _, _ => none
  | fuel+1, toks, max, read, .entry json length =>
    if length = 0 ∨ max = 0 then some (.JSON_INVAL, read, toks, [])
    else if max ≤ read then some (.JSON_OUT_OF_TOKEN, read, toks, [])
    else
      match json_read (some (json_begin json length)) with
      | none => none
      | some (tok, iter) =>
        if iter.err ∧ iter.len ≠ 0 then some (.JSON_PARSING_ERROR, read, toks, [])
        else json_load_run fuel toks max read (.loop tok iter)
  | fuel+1, toks, max, read, .loop tok iter =>
    if iter.len = 0 then some (.JSON_OK, read, toks, [])
    else
      let toks := Function.update toks read tok
      let read' := read + 1
      if max < read' then some (.JSON_OUT_OF_TOKEN, read', toks, [(read, tok)])
      else
        let t := toks (read' - 1)
        if t.type = .JSON_OBJECT ∨ t.type = .JSON_ARRAY then
          match json_load_run fuel toks max read' (.entry (t.str.getD []) t.len.toNat) with
          | none => none
          | some (st, read2, toks2, w2) =>
            if st ≠ .JSON_OK then some (st, read2, toks2, (read, tok) :: w2)
            else
              match json_read (some iter) with
              | none => none
              | some (tok2, iter2) =>
                if iter2.err ∧ iter2.src.isSome ∧ iter2.len ≠ 0 then
                  some (.JSON_PARSING_ERROR, read2, toks2, (read, tok) :: w2)
                else
                  match json_load_run fuel toks2 max read2 (.loop tok2 iter2) with
                  | none => none
                  | some (st3, read3, toks3, w3) =>
                    some (st3, read3, toks3, (read, tok) :: (w2 ++ w3))
        else
          match json_read (some iter) with
          | none => none
          | some (tok2, iter2) =>
            if iter2.err ∧ iter2.src.isSome ∧ iter2.len ≠ 0 then
              some (.JSON_PARSING_ERROR, read', toks, [(read, tok)])
            else
              match json_load_run fuel toks max read' (.loop tok2 iter2) with
              | none => none
              | some (st3, read3, toks3, w3) => some (st3, read3, toks3, (read, tok) :: w3)

/-- json_load with a zero-initialized token array (the documented
calloc usage); the map component is dropped from the result, keeping
status, final read index and the ordered write trace. -/
def json_load (max read : Nat) (json : List Nat) (length : Nat) :
    Option (json_status × Nat × List (Nat × json_token)) :=
  match json_load_run ((length + 2) * (max + 3)) (fun _ => JSON_TOKEN_NULL) max read (.entry json length) with
  | none => none
  | some (st, r, _, w) => some (st, r, w)

/-- The byte range a token denotes: the first len bytes of its str. -/
def token_bytes (tok : json_token) : Option (List Nat) :=
  tok.str.map (fun s => s.take tok.len.toNat)

/-- json_stoi: signed base-10 accumulator over the digits of a token;
a leading minus or plus is skipped, every other non-digit byte is ignored. -/
def json_stoi (tok : json_token) : ℚ :=
  match tok.str with
  | none => 0
  | some s =>
    if tok.len = 0 then 0
    else
      let off := if s.headD 0 = 45 ∨ s.headD 0 = 43 then 1 else 0
      let neg := s.headD 0 = 45
      let n := (List.range tok.len.toNat).foldl
        (fun (n : ℚ) i =>
          if off ≤ i ∧ 48 ≤ s.getD i 0 ∧ s.getD i 0 ≤ 57 then
            n * 10 + ((s.getD i 0 - 48 : Nat) : ℚ)
          else n) 0
      if neg then -n else n

/-- json_stof: fraction accumulator 0.1, 0.01, ... over the digits of a
token (exact in ℚ where the C double accumulation rounds; no claim
depends on the numeric value of a fraction). -/
def json_stof (tok : json_token) : ℚ :=
  match tok.str with
  | none => 0
  | some s =>
    if tok.len = 0 then 0
    else
      ((List.range tok.len.toNat).foldl
        (fun (p : ℚ × ℚ) i =>
          if 48 ≤ s.getD i 0 ∧ s.getD i 0 ≤ 57 then
            (p.1 + ((s.getD i 0 - 48 : Nat) : ℚ) * p.2, p.2 * (1/10))
          else p)
        (0, 1/10)).1

/-- Square-and-multiply loop of json_ipow (the C long/int overflow is
not modelled; every exponent appearing in a claim is tiny). -/
def json_ipow_go : Nat → Nat → Int → Int → Int
  | 0, _, _, res => res
  | fuel+1, e, base, res =>
    if e = 0 then res
    else json_ipow_go fuel (e / 2) (base * base) (if e % 2 = 1 then res * base else res)

/-- json_ipow: integer power, returned as a json_number. -/
def json_ipow (base : Int) (e : Nat) : ℚ := (json_ipow_go (e + 1) e base 1 : ℚ)

/-- Which of the three part tokens (integer, fraction, exponent) the
write pointer of json_convert currently targets. -/
inductive cpart where
  | INT | FLT | EXP
deriving DecidableEq

/-- Read the part token the write pointer targets. -/
def cpart_get : cpart → json_token → json_token → json_token → json_token
  | .INT, a, _, _ => a
  | .FLT, _, b, _ => b
  | .EXP, _, _, c => c

/-- Store through the write pointer. -/
def cpart_set : cpart → json_token → json_token → json_token → json_token →
    json_token × json_token × json_token
  | .INT, v, _, b, c => (v, b, c)
  | .FLT, v, a, _, c => (a, v, c)
  | .EXP, v, a, b, _ => (a, b, v)

/-- Distance cur - write->str for the in-flight part token. -/
def cpart_dist (w : json_token) (cur : List Nat) : Int :=
  match w.str with
  | some s => (s.length : Int) - (cur.length : Int)
  | none => -1

/-- The splitting loop of json_convert: walk the token bytes through
json_go_num, splitting at most once at a decimal point and once at an
exponent marker; whitespace ends the scan early (NUM_BREAK sets len to 1,
so the loop update exits after stepping past the byte); a byte with no
transition, a second decimal point, a decimal point after the exponent or
a second exponent abort with none (JSON_NONE).  Returns the three part
tokens, the final write target and the final cur position. -/
def json_convert_go : List Nat → Nat → cpart → json_token → json_token → json_token →
    Option (cpart × json_token × json_token × json_token × List Nat)
  | cur, 0, w, nI, nF, nE => some (w, nI, nF, nE, cur)
  | cur, len+1, w, nI, nF, nE =>
    match json_go_num (cur.headD 0) with
    | .NUM_FAILED => none
    | .NUM_FLT =>
      if nF.str.isSome then none
      else if nE.str.isSome then none
      else
        let wt := cpart_get w nI nF nE
        let (nI, nF, nE) := cpart_set w { wt with len := cpart_dist wt cur } nI nF nE
        let (nI, nF, nE) := cpart_set .FLT { nF with str := some cur.tail } nI nF nE
        json_convert_go cur.tail len .FLT nI nF nE
    | .NUM_EXP =>
      if nE.str.isSome then none
      else
        let wt := cpart_get w nI nF nE
        let (nI, nF, nE) := cpart_set w { wt with len := cpart_dist wt cur } nI nF nE
        let (nI, nF, nE) := cpart_set .EXP { nE with str := some cur.tail } nI nF nE
        json_convert_go cur.tail len .EXP nI nF nE
    | .NUM_BREAK => some (w, nI, nF, nE, cur.tail)
    | _ => json_convert_go cur.tail len w nI nF nE

/-- json_convert: split a numeric token into integer, fraction and
exponent parts, convert each and combine (int + sign(int)*frac)*10^exp.
Returns the kind together with the number that C stores through the out
pointer (0 when the kind is JSON_NONE and the out value is untouched). -/
def json_convert (tok : json_token) : json_token_type × ℚ :=
  match tok.str with
  | none => (.JSON_NONE, 0)
  | some s =>
    if tok.len = 0 then (.JSON_NONE, 0)
    else
      let nI := { JSON_TOKEN_NULL with str := some s }
      match json_convert_go s tok.len.toNat .INT nI JSON_TOKEN_NULL JSON_TOKEN_NULL with
      | none => (.JSON_NONE, 0)
      | some (w, nI, nF, nE, cur) =>
        let wt := cpart_get w nI nF nE
        let (nI, nF, nE) := cpart_set w { wt with len := cpart_dist wt cur } nI nF nE
        let i := json_stoi nI
        let f := json_stof nF
        let e := json_stoi nE
        let p := json_ipow 10 (Int.toNat ⌈if e < 0 then -e else e⌉)
        let p := if e < 0 then 1 / p else p
        (.JSON_NUMBER, (i + (if i < 0 then -f else f)) * p)

/-- json_cpy: bounded copy of a token into a destination buffer.  The
destination is modelled as the list of bytes written (copied bytes then
the NUL terminator); the C int return value is the first component. -/
def json_cpy (max : Int) (tok : json_token) : Int × List Nat :=
  if max = 0 then (0, [])
  else
    let ret := if max < tok.len + 1 then max else tok.len
    let siz := if max < tok.len + 1 then max - 1 else tok.len
    let s := tok.str.getD []
    (ret, (List.range siz.toNat).map (fun i => s.getD i 0) ++ [0])

/-- json_lcmp: length-bounded comparison of a token with a string;
0 on match over min(tok.len, len) bytes, 1 otherwise. -/
def json_lcmp (tok : json_token) (str : Option (List Nat)) (len : Int) : Int :=
  match str with
  | none => 1
  | some s =>
    if len = 0 then 1
    else
      if (List.range (min tok.len len).toNat).all
          (fun i => (tok.str.getD []).getD i 0 = s.getD i 0) then 0
      else 1

/-- Scanning loop of json_strchr.  The loop stops on a NUL byte (the end
of the list counts as the terminating NUL), on a negative remaining
length, or when the wanted byte is found; with a negative input length
the count never decreases and the terminator position is returned when
the byte is not found. -/
def json_strchr_go (c : Nat) (neg : Bool) : List Nat → Int → Nat → Option Nat
  | [], _, i => if neg then some i else none
  | b :: rest, len, i =>
    if b = 0 then (if neg then some i else none)
    else if len < 0 then (if neg then some i else none)
    else if b = c then some i
    else json_strchr_go c neg rest (len - (if neg then 0 else 1)) (i + 1)

/-- json_strchr: find a byte, returning its index (the C pointer) in the
given string; none is the NULL pointer result. -/
def json_strchr (s : List Nat) (c : Nat) (len : Int) : Option Nat :=
  json_strchr_go c (len < 0) s (if len < 0 then 0 else len) 0

/-- json_path_parse_name: split the next path segment off a path string.
The C function leaves the name token untouched and returns NULL on an
empty path, so the previous name token is threaded through; a returned
none is the NULL path pointer. -/
def json_path_parse_name (name0 : json_token) (path : Option (List Nat)) :
    json_token × Option (List Nat) :=
  match path with
  | none => (name0, none)
  | some p =>
    if p.headD 0 = 0 then (name0, none)
    else
      let tok := { name0 with str := some p }
      let del := (json_strchr p 46 (-1)).getD p.length
      let begin_ := (json_strchr p 91 (-1)).getD p.length
      let end_ := (json_strchr p 93 (-1)).getD p.length
      if begin_ = 0 then
        let tok := { tok with len := (end_ : Int) - (begin_ : Int) + 1 }
        if p.getD (end_ + 1) 0 = 0 then (tok, none)
        else if p.getD (end_ + 1) 0 = 46 then (tok, some (p.drop (end_ + 2)))
        else (tok, some (p.drop (end_ + 1)))
      else if begin_ < del then
        ({ tok with len := (begin_ : Int) }, some (p.drop begin_))
      else if p.getD del 0 = 0 then ({ tok with len := (del : Int) }, none)
      else ({ tok with len := (del : Int) }, some (p.drop (del + 1)))

/-- json_path_parse_array: extract the bracketed index from a path
segment token; none is the failure (0) return. -/
def json_path_parse_array (array0 : json_token) (token : json_token) :
    Option json_token :=
  let s := token.str.getD []
  match json_strchr s 91 token.len with
  | none => none
  | some b =>
    if token.len ≤ (b : Int) then none
    else
      match json_strchr (s.drop b) 93 (token.len - b) with
      | none => none
      | some e =>
        if token.len ≤ (b + e : Int) then none
        else some { array0 with str := some (s.drop (b + 1)), len := (e : Int) - 1 }

/-- Reading toks[i] in the query engine: an index outside the list (or a
negative one, which in C reads arbitrary memory) is modelled as the null
token. -/
def tokAt (toks : List json_token) (i : Int) : json_token :=
  if 0 ≤ i then toks.getD i.toNat JSON_TOKEN_NULL else JSON_TOKEN_NULL

/-- The C cast (int)n of a double: truncation toward zero. -/
def rat_trunc (q : ℚ) : Int := Int.sign q.num * (q.num.natAbs / q.den : Nat)

/-- The element walk of the array branch of json_query: advance the
cursor by 1 + sub per container element (1 per scalar), n times, failing
when the index passes count.  The step count is the number of loop
iterations j = 0 .. n-1 of the C for loop (for the integral n of a parsed
bracket index this is n). -/
def json_query_walk : Nat → List json_token → Int → Int → Option Int
  | 0, _, _, i => some i
  | k+1, toks, count, i =>
    let it := tokAt toks i
    let i' := if it.type = .JSON_ARRAY ∨ it.type = .JSON_OBJECT then i + it.sub + 1 else i + 1
    if count < i' then none
    else json_query_walk k toks count i'

/-- The while (1) loop of json_query.  State: cursor index i, the begin
sentinel, the remaining path, the current segment token name, the array
scratch token, and the object iterator (index, size).  The outer Option
is fuel exhaustion; the inner Option Int is the returned pointer
(none = NULL, some i = &toks[i]). -/
def json_query_go : Nat → List json_token → Int → Int → Bool → Option (List Nat) →
    json_token → json_token → Int → Int → Option (Option Int)
  | 0, _, _, _, _, _, _, _, _, _ => none
  | fuel+1, toks, count, i, begin_, path, name, arr, oidx, osize =>
    let iter := tokAt toks i
    if iter.type = .JSON_OBJECT ∨ iter.type = .JSON_ARRAY ∨ begin_ then
      if begin_ then
        json_query_go fuel toks count i false path name arr 0 count
      else if iter.type = .JSON_OBJECT then
        if count < i + 1 then some none
        else json_query_go fuel toks count (i + 1) false path name arr 0 iter.children
      else
        match json_path_parse_array arr name with
        | none => some none
        | some arr1 =>
          if count ≤ i + 1 then some none
          else if arr1.len < 1 then some none
          else if (json_convert arr1).1 ≠ .JSON_NUMBER then some none
          else
            let n := (json_convert arr1).2
            if iter.children ≤ rat_trunc n then some none
            else
              let arr2 : json_token := { arr1 with str := none, len := 0 }
              match json_query_walk (Int.toNat ⌈n⌉) toks count (i + 1) with
              | none => some none
              | some i2 =>
                match path with
                | none => some (some i2)
                | some _ =>
                  let pr := json_path_parse_name name path
                  json_query_go fuel toks count i2 false pr.2 pr.1 arr2 0 osize
    else
      if json_lcmp iter name.str name.len = 0 then
        match path with
        | none => if count < i + 1 then some none else some (some (i + 1))
        | some _ =>
          if count < i + 1 then some none
          else if ¬((tokAt toks (i + 1)).type = .JSON_OBJECT ∨
                    (tokAt toks (i + 1)).type = .JSON_ARRAY) then some none
          else
            let pr := json_path_parse_name name path
            json_query_go fuel toks count (i + 1) false pr.2 pr.1 arr oidx osize
      else
        if osize ≤ oidx + 1 then some none
        else if count ≤ i + 1 then some none
        else
          let nxt := tokAt toks (i + 1)
          let i' := if nxt.type = .JSON_ARRAY ∨ nxt.type = .JSON_OBJECT then i + nxt.sub + 2 else i + 2
          if count ≤ i' then some none
          else json_query_go fuel toks count i' false path name arr (oidx + 1) osize

/-- json_query: resolve a dotted/bracketed path against the flat token
array.  A null path returns the root &toks[0]; a zero count (or in C a
null toks pointer, not representable for a list) returns NULL.  The C
locals name (uninitialized) and array (str/len zeroed) start as the null
token. -/
def json_query (toks : List json_token) (count : Int) (path : Option (List Nat)) :
    Option (Option Int) :=
  if count = 0 then some none
  else
    match path with
    | none => some (some 0)
    | some p =>
      let pr := json_path_parse_name JSON_TOKEN_NULL (some p)
      json_query_go (count.toNat + p.length + 4) toks count 0 true pr.2 pr.1
        JSON_TOKEN_NULL 0 0

/-- json_query_number: query, require a Number token, convert.  Returns
the kind and the number written through the out pointer (0 when it is
untouched). -/
def json_query_number (toks : List json_token) (count : Int) (path : Option (List Nat)) :
    Option (json_token_type × ℚ) :=
  if count = 0 ∨ path = none then some (.JSON_NONE, 0)
  else
    match json_query toks count path with
    | none => none
    | some none => some (.JSON_NONE, 0)
    | some (some idx) =>
      let tok := tokAt toks idx
      if tok.type ≠ .JSON_NUMBER then some (tok.type, 0)
      else some (json_convert tok)

/-- json_query_string: query, require a String token, bounded-copy it.
The copy result (return value and written bytes) is none when json_cpy
was not invoked. -/
def json_query_string (max : Int) (toks : List json_token) (count : Int)
    (path : Option (List Nat)) : Option (json_token_type × Option (Int × List Nat)) :=
  if count = 0 ∨ path = none then some (.JSON_NONE, none)
  else
    match json_query toks count path with
    | none => none
    | some none => some (.JSON_NONE, none)
    | some (some idx) =>
      let tok := tokAt toks idx
      if tok.type ≠ .JSON_STRING then some (tok.type, none)
      else some (tok.type, some (json_cpy max tok))

/-- json_query_type: query and return the kind (JSON_NONE for NULL). -/
def json_query_type (toks : List json_token) (count : Int) (path : Option (List Nat)) :
    Option json_token_type :=
  if count = 0 ∨ path = none then some .JSON_NONE
  else
    match json_query toks count path with
    | none => none
    | some none => some .JSON_NONE
    | some (some idx) => some (tokAt toks idx).type

/-- A byte the numeric DFA has no transition for. -/
def is_failed (c : Nat) : Bool := json_go_num c == .NUM_FAILED

/-- A decimal-point byte (byte 46, the only NUM_FLT transition). -/
def is_flt (c : Nat) : Bool := json_go_num c == .NUM_FLT

/-- An exponent-marker byte (byte 101 or 69, the NUM_EXP transitions). -/
def is_exp (c : Nat) : Bool := json_go_num c == .NUM_EXP

/-- The bytes json_convert actually examines: the token bytes up to the
first whitespace byte (whose NUM_BREAK transition ends the scan). -/
def num_examined (s : List Nat) (len : Nat) : List Nat :=
  (s.take len).takeWhile (fun c => json_go_num c != .NUM_BREAK)

/-- Malformedness of an examined byte sequence, relative to whether a
decimal point (f) or an exponent marker (e) has already been consumed:
a byte with no transition; two decimal points (or one when f); two
exponent markers (or one when e); a decimal point at or after the first
exponent marker (also one when e). -/
def num_bad (f e : Bool) (P : List Nat) : Prop :=
  1 ≤ P.countP is_failed ∨
  2 ≤ P.countP is_flt ∨
  (f = true ∧ 1 ≤ P.countP is_flt) ∨
  2 ≤ P.countP is_exp ∨
  (e = true ∧ 1 ≤ P.countP is_exp) ∨
  (e = true ∧ 1 ≤ P.countP is_flt) ∨
  1 ≤ ((P.dropWhile (fun x => !(is_exp x))).countP is_flt)

instance num_bad_decidable (f e : Bool) (P : List Nat) : Decidable (num_bad f e P) := by
  unfold num_bad
  infer_instance

/-! Concrete inputs used by the claim theorems. -/

/-- The bytes of the document from claim C1 and spec scenario 1:
left brace, quote a quote, colon, 1, comma, quote b quote, colon,
quote h i quote, right brace. -/
def c1_json : List Nat := [123,34,97,34,58,49,44,34,98,34,58,34,104,105,34,125]

/-- The bytes of the open bracket, 1, comma, open bracket, 2, close
bracket document (a document that ends exactly at the closing bracket of
a nested container). -/
def c2_json : List Nat := [91,49,44,91,50,93]

/-- The bytes of the close bracket, open bracket, open brace, open
brace, close brace, close brace document: the two stray leading closers
underflow and then re-wrap the unsigned depth counter. -/
def c3_json : List Nat := [93,91,123,123,125,125]

/-- The bytes of the open bracket, 1, comma, 2, close bracket document. -/
def c6_json : List Nat := [91,49,44,50,93]

/-- A five-byte string token (the bytes of the word hello). -/
def cpy_tok : json_token := ⟨.JSON_STRING, some [104,101,108,108,111], 5, 0, 0⟩

/-- A numeric token whose bytes are 1, space, x: the x has no go_num
transition but sits after a whitespace byte. -/
def c5_tok : json_token := ⟨.JSON_NUMBER, some [49,32,120], 3, 0, 0⟩

/-! Claim theorems. -/

/-- C1, counterexample: the claim asserts json_num returns 5 for the
document of scenario 1; the code returns 4 (the outer object is consumed
as the virtual root and never materialized as a token). -/
theorem c1_counterexample : json_num c1_json 16 ≠ some 5 := by decide

/-- C1, amended: for the input of scenario 1, json_num returns 4 and a
successful json_load fills the array with exactly the four tokens
String a, Number 1, String b, String hi (each borrowing its bytes from
the source); no token for the outer container is produced. -/
theorem c1_amended :
    json_num c1_json 16 = some 4 ∧
    json_load 8 0 c1_json 16 = some (.JSON_OK, 4,
      [(0, ⟨.JSON_STRING, some (c1_json.drop 2), 1, 0, 0⟩),
       (1, ⟨.JSON_NUMBER, some (c1_json.drop 5), 1, 0, 0⟩),
       (2, ⟨.JSON_STRING, some (c1_json.drop 8), 1, 0, 0⟩),
       (3, ⟨.JSON_STRING, some (c1_json.drop 12), 2, 0, 0⟩)]) := by decide

/-- C2, code bug: on the six-byte document of c2_json, json_num counts 3
tokens, yet json_load (started with read = 0 and ample capacity) returns
JSON_OK after writing only one token: the trailing array token is
yielded together with an exhausted iterator and the load loop drops it.
The claimed invariant num = final read is the documented usage contract
(allocate num tokens, then load), so the code, not the claim, is wrong. -/
theorem c2_divergence :
    json_num c2_json 6 = some 3 ∧
    (json_load 4 0 c2_json 6).map (fun r => (r.1, r.2.1)) = some (.JSON_OK, 1) := by decide

/-- C6, code bug: loading the five-byte document of c6_json into an
array of capacity max = 1 does return JSON_OUT_OF_TOKEN, but the second
write it performs lands at index 1 = max, outside the caller's array:
the store toks[*read] happens before the *read > max check. -/
theorem c6_divergence :
    (json_load 1 0 c6_json 5).map (fun r => (r.1, r.2.1, r.2.2.map Prod.fst)) =
      some (.JSON_OUT_OF_TOKEN, 2, [0, 1]) := by decide

/-- C7, counterexample: the claim asserts json_num returns 1 for the
two-byte document of an open and a close brace; the code returns 0. -/
theorem c7_counterexample : json_num [123, 125] 2 ≠ some 1 := by decide

/-- C7, amended: for the two-byte inputs of braces and of brackets,
json_num returns 0 and json_load succeeds writing no token at all: the
empty container is consumed as the virtual root and produces nothing. -/
theorem c7_amended :
    json_num [123, 125] 2 = some 0 ∧ json_num [91, 93] 2 = some 0 ∧
    json_load 4 0 [123, 125] 2 = some (.JSON_OK, 0, []) ∧
    json_load 4 0 [91, 93] 2 = some (.JSON_OK, 0, []) := by decide

/-- C8, counterexample: for a five-byte token and max = 3, json_cpy
copies two bytes (writing three bytes including the terminator) but
returns 3, not the number of bytes it copied. -/
theorem c8_counterexample :
    (json_cpy 3 cpy_tok).2 = [104, 101, 0] ∧
    (json_cpy 3 cpy_tok).1 ≠ ((json_cpy 3 cpy_tok).2.length : Int) - 1 := by decide

/-- C9: json_read with a null iterator pointer, or with an iterator
whose src is null, whose len is 0 or whose err flag is set, writes the
null token (kind None, null str, len 0, children 0, sub 0) to the output
slot and returns the null iterator with only err set; the result is a
fixed constant, so no input byte is examined. -/
theorem c9_null_read :
    json_read none = some (⟨.JSON_NONE, none, 0, 0, 0⟩, ⟨0, true, 0, none, none⟩) ∧
    ∀ p : json_iter, (p.src = none ∨ p.len = 0 ∨ p.err = true) →
      json_read (some p) = some (⟨.JSON_NONE, none, 0, 0, 0⟩, ⟨0, true, 0, none, none⟩) := by
  refine ⟨rfl, fun p h => ?_⟩
  have : (p.src = none ∨ p.len = 0 ∨ p.err) := h
  simp [json_read, this, JSON_TOKEN_NULL, JSON_ITER_NULL]

/-- C9 witness: the theorem applied to the null iterator value. -/
theorem c9_null_read_witness :
    json_read (some JSON_ITER_NULL) =
      some (⟨.JSON_NONE, none, 0, 0, 0⟩, ⟨0, true, 0, none, none⟩) :=
  c9_null_read.2 JSON_ITER_NULL (Or.inl rfl)

/-- C10: for every token array and count > 0, the typed helpers
json_query_number, json_query_string and json_query_type return the
JSON_NONE kind when the path is null, although json_query itself with a
null path returns the root token toks[0]. -/
theorem c10_null_path (toks : List json_token) (count : Int) (max : Int)
    (h : 0 < count) :
    json_query_number toks count none = some (.JSON_NONE, 0) ∧
    json_query_string max toks count none = some (.JSON_NONE, none) ∧
    json_query_type toks count none = some .JSON_NONE ∧
    json_query toks count none = some (some 0) := by
  have hc : count ≠ 0 := ne_of_gt h
  refine ⟨?_, ?_, ?_, ?_⟩ <;> simp [json_query_number, json_query_string,
    json_query_type, json_query, hc]

/-- C10 witness: the helpers on a one-token array with count 1. -/
theorem c10_null_path_witness :
    json_query_number [JSON_TOKEN_NULL] 1 none = some (.JSON_NONE, 0) ∧
    json_query_string 8 [JSON_TOKEN_NULL] 1 none = some (.JSON_NONE, none) ∧
    json_query_type [JSON_TOKEN_NULL] 1 none = some .JSON_NONE ∧
    json_query [JSON_TOKEN_NULL] 1 none = some (some 0) :=
  c10_null_path [JSON_TOKEN_NULL] 1 8 (by decide)

/-- Reading indices 0..n-1 of a list through getD agrees with take when
n is within the list. -/
theorem range_map_getD (s : List Nat) (n : Nat) (h : n ≤ s.length) :
    (List.range n).map (fun i => s.getD i 0) = s.take n := by
  induction n with
  | zero => simp
  | succ k ih =>
    rw [List.range_succ, List.map_append, ih (Nat.le_of_succ_le h), List.take_succ]
    simp [List.getD, List.getElem?_eq_getElem (Nat.lt_of_succ_le h)]

/-- C8, amended: for a non-null token over bytes s and max > 0, json_cpy
writes min(max-1, len) copied bytes followed by a NUL terminator, so it
copies at most max-1 bytes; it returns the copied length when the whole
token fits (max at least len+1) but returns max, one more than the
number of bytes copied, when it truncates. -/
theorem c8_amended (max : Int) (tok : json_token) (s : List Nat)
    (hm : 0 < max) (hs : tok.str = some s) (hl : 0 ≤ tok.len)
    (hsl : tok.len ≤ (s.length : Int)) :
    (json_cpy max tok).2 = s.take (min (max - 1) tok.len).toNat ++ [0] ∧
    ((json_cpy max tok).2.length : Int) - 1 ≤ max - 1 ∧
    (json_cpy max tok).1 =
      (if max < tok.len + 1 then max else ((json_cpy max tok).2.length : Int) - 1) := by
  have hm0 : max ≠ 0 := ne_of_gt hm
  simp only [json_cpy, hm0, if_false, hs, Option.getD_some]
  have hsiz : (if max < tok.len + 1 then max - 1 else tok.len) = min (max - 1) tok.len := by
    split <;> omega
  rw [hsiz]
  have hle : (min (max - 1) tok.len).toNat ≤ s.length := by omega
  rw [range_map_getD s _ hle]
  refine ⟨rfl, ?_, ?_⟩
  · have : (s.take (min (max - 1) tok.len).toNat).length = (min (max - 1) tok.len).toNat := by
      simp [Nat.min_eq_left hle]
    simp only [List.length_append, this, List.length_cons, List.length_nil]
    omega
  · have : (s.take (min (max - 1) tok.len).toNat).length = (min (max - 1) tok.len).toNat := by
      simp [Nat.min_eq_left hle]
    simp only [List.length_append, this, List.length_cons, List.length_nil]
    split <;> omega

/-- C8 witness: the amended theorem applied to the five-byte token and
max = 3 (truncating) together with its evaluated conclusion. -/
theorem c8_amended_witness :
    (json_cpy 3 cpy_tok).2 = [104, 101, 0] ∧ (json_cpy 3 cpy_tok).1 = 3 := by
  have h := c8_amended 3 cpy_tok [104, 101, 108, 108, 111] (by decide) rfl (by decide) (by decide)
  refine ⟨?_, ?_⟩
  · rw [h.1]; decide
  · rw [h.2.2]; rw [h.1]; decide

/-- Prepending a decimal-point byte to the examined bytes, before any
dot or exponent was consumed, is as bad as having consumed the dot. -/
theorem num_bad_cons_flt (b : Nat) (P : List Nat) (hb : json_go_num b = .NUM_FLT) :
    num_bad false false (b :: P) ↔ num_bad true false P := by
  have h1 : ¬ is_failed b = true := by simp [is_failed, hb]
  have h2 : is_flt b = true := by simp [is_flt, hb]
  have h3 : ¬ is_exp b = true := by simp [is_exp, hb]
  have h4 : List.dropWhile (fun x => !is_exp x) (b :: P) =
      List.dropWhile (fun x => !is_exp x) P := by
    simp [List.dropWhile_cons, h3]
  unfold num_bad
  rw [List.countP_cons_of_neg is_failed _ h1, List.countP_cons_of_pos is_flt _ h2,
      List.countP_cons_of_neg is_exp _ h3, h4]
  simp only [Bool.false_eq_true, false_and, true_and, false_or, or_false]
  omega

/-- Prepending an exponent-marker byte, before any exponent marker was
consumed, is as bad as having consumed the exponent marker. -/
theorem num_bad_cons_exp (f : Bool) (b : Nat) (P : List Nat)
    (hb : json_go_num b = .NUM_EXP) :
    num_bad f false (b :: P) ↔ num_bad f true P := by
  have hsub : (P.dropWhile (fun x => !(is_exp x))).countP is_flt ≤ P.countP is_flt :=
    List.Sublist.countP_le is_flt (List.dropWhile_sublist _)
  have h1 : ¬ is_failed b = true := by simp [is_failed, hb]
  have h2 : ¬ is_flt b = true := by simp [is_flt, hb]
  have h3 : is_exp b = true := by simp [is_exp, hb]
  have h4 : List.dropWhile (fun x => !is_exp x) (b :: P) = b :: P := by
    simp [List.dropWhile_cons, h3]
  unfold num_bad
  rw [List.countP_cons_of_neg is_failed _ h1, List.countP_cons_of_neg is_flt _ h2,
      List.countP_cons_of_pos is_exp _ h3, h4,
      List.countP_cons_of_neg is_flt _ h2]
  cases f <;>
    simp only [Bool.false_eq_true, false_and, true_and, false_or, or_false] <;>
    omega

/-- The splitting loop of json_convert returns none exactly when the
examined bytes are malformed relative to the parts already split off
(the str fields of the fraction and exponent part tokens record whether
a dot or an exponent marker was consumed). -/
theorem convert_go_none_iff (len : Nat) :
    ∀ (cur : List Nat) (w : cpart) (nI nF nE : json_token), len ≤ cur.length →
    (json_convert_go cur len w nI nF nE = none ↔
      num_bad nF.str.isSome nE.str.isSome (num_examined cur len)) := by
  induction len with
  | zero =>
    intro cur w nI nF nE _
    simp [json_convert_go, num_bad, num_examined]
  | succ k ih =>
    rintro (_ | ⟨b, rest⟩) w nI nF nE hlen
    · simp at hlen
    · have hlen' : k ≤ rest.length := by simpa using hlen
      cases hgo : json_go_num b with
      | NUM_FAILED =>
        have hexam : num_examined (b :: rest) (k+1) = b :: num_examined rest k := by
          simp [num_examined, List.takeWhile_cons, hgo]
        have hpos : is_failed b = true := by simp [is_failed, hgo]
        simp only [json_convert_go, List.headD_cons, hgo, hexam]
        constructor
        · intro _
          exact Or.inl (by rw [List.countP_cons_of_pos _ _ hpos]; omega)
        · intro _
          trivial
      | NUM_BREAK =>
        have hexam : num_examined (b :: rest) (k+1) = [] := by
          simp [num_examined, List.takeWhile_cons, hgo]
        simp only [json_convert_go, List.headD_cons, hgo, hexam]
        simp [num_bad]
      | NUM_LOOP =>
        have hexam : num_examined (b :: rest) (k+1) = b :: num_examined rest k := by
          simp [num_examined, List.takeWhile_cons, hgo]
        have h1 : ¬ is_failed b = true := by simp [is_failed, hgo]
        have h2 : ¬ is_flt b = true := by simp [is_flt, hgo]
        have h3 : ¬ is_exp b = true := by simp [is_exp, hgo]
        have h4 : List.dropWhile (fun x => !is_exp x) (b :: num_examined rest k) =
            List.dropWhile (fun x => !is_exp x) (num_examined rest k) := by
          simp [List.dropWhile_cons, h3]
        simp only [json_convert_go, List.headD_cons, hgo, hexam, List.tail_cons]
        rw [ih rest w nI nF nE hlen']
        unfold num_bad
        rw [List.countP_cons_of_neg is_failed _ h1, List.countP_cons_of_neg is_flt _ h2,
            List.countP_cons_of_neg is_exp _ h3, h4]
      | NUM_FLT =>
        have hexam : num_examined (b :: rest) (k+1) = b :: num_examined rest k := by
          simp [num_examined, List.takeWhile_cons, hgo]
        have hpos : is_flt b = true := by simp [is_flt, hgo]
        simp only [json_convert_go, List.headD_cons, hgo, hexam]
        by_cases hf : nF.str.isSome
        · rw [if_pos hf, hf]
          constructor
          · intro _
            exact Or.inr (Or.inr (Or.inl ⟨rfl, by
              rw [List.countP_cons_of_pos _ _ hpos]; omega⟩))
          · intro _
            trivial
        · rw [if_neg hf]
          by_cases he : nE.str.isSome
          · rw [if_pos he, he]
            constructor
            · intro _
              exact Or.inr (Or.inr (Or.inr (Or.inr (Or.inr (Or.inl ⟨rfl, by
                rw [List.countP_cons_of_pos _ _ hpos]; omega⟩)))))
            · intro _
              trivial
          · rw [if_neg he]
            simp only [Bool.not_eq_true] at hf he
            rw [hf, he]
            cases w <;>
              simp only [cpart_get, cpart_set, cpart_dist, List.tail_cons] <;>
              rw [ih rest _ _ _ _ hlen'] <;>
              simp only [Option.isSome_some, he] <;>
              exact (num_bad_cons_flt b _ hgo).symm
      | NUM_EXP =>
        have hexam : num_examined (b :: rest) (k+1) = b :: num_examined rest k := by
          simp [num_examined, List.takeWhile_cons, hgo]
        have hpos : is_exp b = true := by simp [is_exp, hgo]
        simp only [json_convert_go, List.headD_cons, hgo, hexam]
        by_cases he : nE.str.isSome
        · rw [if_pos he, he]
          constructor
          · intro _
            exact Or.inr (Or.inr (Or.inr (Or.inr (Or.inl ⟨rfl, by
              rw [List.countP_cons_of_pos _ _ hpos]; omega⟩))))
          · intro _
            trivial
        · rw [if_neg he]
          simp only [Bool.not_eq_true] at he
          rw [he]
          cases w <;>
            simp only [cpart_get, cpart_set, cpart_dist, List.tail_cons] <;>
            rw [ih rest _ _ _ _ hlen'] <;>
            simp only [Option.isSome_some] <;>
            exact (num_bad_cons_exp _ b _ hgo).symm

/-- C5, counterexample: the token with bytes 1, space, x contains the
byte x (120), which has no go_num transition, yet json_convert returns
the Number kind, not None: the whitespace byte ends the scan (NUM_BREAK)
before the bad byte is ever examined. -/
theorem c5_counterexample :
    json_go_num 120 = .NUM_FAILED ∧ (json_convert c5_tok).1 = .JSON_NUMBER := by decide

/-- C5, amended: restricted to the bytes json_convert examines — the
token bytes before the first whitespace byte — the conditions are exact:
json_convert returns the None kind iff the examined bytes contain a byte
with no go_num transition, two decimal points, two exponent markers, or
a decimal point at or after an exponent marker; otherwise, in particular
for every well-formed numeric token, it returns the Number kind. -/
theorem c5_amended (tok : json_token) (s : List Nat)
    (hs : tok.str = some s) (hpos : 0 < tok.len) (hle : tok.len ≤ (s.length : Int)) :
    ((json_convert tok).1 = .JSON_NONE ↔
      num_bad false false (num_examined s tok.len.toNat)) := by
  have hlen : tok.len.toNat ≤ s.length := by omega
  have hne : ¬ tok.len = 0 := by omega
  have key := convert_go_none_iff tok.len.toNat s .INT
    { JSON_TOKEN_NULL with str := some s } JSON_TOKEN_NULL JSON_TOKEN_NULL hlen
  simp only [JSON_TOKEN_NULL, Option.isSome_none] at key
  have hconv : ((json_convert tok).1 = .JSON_NONE ↔
      json_convert_go s tok.len.toNat .INT { JSON_TOKEN_NULL with str := some s }
        JSON_TOKEN_NULL JSON_TOKEN_NULL = none) := by
    unfold json_convert
    rw [hs]
    simp only [hne, if_false]
    rcases h : json_convert_go s tok.len.toNat .INT
        { JSON_TOKEN_NULL with str := some s } JSON_TOKEN_NULL JSON_TOKEN_NULL
      with _ | ⟨w, nI, nF, nE, cur⟩
    · simp
    · simp
  exact hconv.trans key

/-- C5 witness: the amended theorem rejecting the double-dot token with
bytes 1, dot, dot. -/
theorem c5_amended_witness :
    (json_convert ⟨.JSON_NUMBER, some [49, 46, 46], 3, 0, 0⟩).1 = .JSON_NONE :=
  (c5_amended ⟨.JSON_NUMBER, some [49, 46, 46], 3, 0, 0⟩ [49, 46, 46] rfl (by decide)
    (by decide)).mpr (by decide)

/-- C3, code bug: on the document of c3_json, json_load returns JSON_OK
with a single written token (count = 1): an Object token covering the
two brace bytes with children 0 but sub 1.  The stray closing bracket
underflows the unsigned depth counter, so the following stray open
bracket is counted into sub at a wrapped depth; the braces then re-wrap
depth to 0.  The container token at index 0 has i + sub = 1, not < count
= 1, and its own byte range reloads to zero tokens, so no token is
nested within it despite sub = 1.  The claim is the spec's universal
invariant 1 and the intended meaning of sub; the unsigned wrap-around is
a slip of the code. -/
theorem c3_divergence :
    json_load 4 0 c3_json 6 =
      some (.JSON_OK, 1, [(0, ⟨.JSON_OBJECT, some [123, 125, 125], 2, 0, 1⟩)]) ∧
    json_load 8 0 [123, 125] 2 = some (.JSON_OK, 0, []) ∧
    ¬ ((0 : Int) + 1 < 1) := by decide

/-- C4: json_query returns null whenever resolution goes out of bounds
at a step of its loop, stated for arbitrary token arrays (hence for
every loaded one, whose length equals the count passed to the query):
(1) a path segment is still being resolved but the cursor index has
reached count — no more tokens exist — so the loop returns null, on
every branch; (2) the cursor is an Array token and the parsed bracket
index, converted and truncated to int, is at least the array's children
count: null; (3) after a key match with path segments remaining, the
value descended into is neither an Object nor an Array: null. -/
theorem c4_out_of_bounds :
    (∀ (fuel : Nat) (toks : List json_token) (count i : Int)
       (path : Option (List Nat)) (name arr : json_token) (oidx osize : Int),
       (toks.length : Int) ≤ count → count ≤ i →
       json_query_go (fuel+1) toks count i false path name arr oidx osize = some none) ∧
    (∀ (fuel : Nat) (toks : List json_token) (count i : Int)
       (path : Option (List Nat)) (name arr arr1 : json_token) (oidx osize : Int),
       (tokAt toks i).type = .JSON_ARRAY →
       json_path_parse_array arr name = some arr1 →
       (json_convert arr1).1 = .JSON_NUMBER →
       (tokAt toks i).children ≤ rat_trunc (json_convert arr1).2 →
       json_query_go (fuel+1) toks count i false path name arr oidx osize = some none) ∧
    (∀ (fuel : Nat) (toks : List json_token) (count i : Int)
       (p : List Nat) (name arr : json_token) (oidx osize : Int),
       ¬((tokAt toks i).type = .JSON_OBJECT ∨ (tokAt toks i).type = .JSON_ARRAY) →
       json_lcmp (tokAt toks i) name.str name.len = 0 →
       ¬((tokAt toks (i + 1)).type = .JSON_OBJECT ∨
         (tokAt toks (i + 1)).type = .JSON_ARRAY) →
       json_query_go (fuel+1) toks count i false (some p) name arr oidx osize = some none) := by
  refine ⟨?_, ?_, ?_⟩
  · intro fuel toks count i path name arr oidx osize hlen hci
    have hi0 : (0 : Int) ≤ i := by omega
    have hiter : tokAt toks i = JSON_TOKEN_NULL := by
      unfold tokAt
      rw [if_pos hi0]
      exact List.getD_eq_default _ _ (by omega)
    have hcond : ¬((tokAt toks i).type = .JSON_OBJECT ∨
        (tokAt toks i).type = .JSON_ARRAY ∨ (false = true)) := by
      rw [hiter]; simp [JSON_TOKEN_NULL]
    simp only [json_query_go]
    rw [if_neg hcond]
    by_cases hl : json_lcmp (tokAt toks i) name.str name.len = 0
    · rw [if_pos hl]
      have h1 : count < i + 1 := by omega
      cases path with
      | none => simp [h1]
      | some p => simp [h1]
    · rw [if_neg hl]
      by_cases ho : osize ≤ oidx + 1
      · rw [if_pos ho]
      · rw [if_neg ho, if_pos (by omega : count ≤ i + 1)]
  · intro fuel toks count i path name arr arr1 oidx osize harr hparse hconv hchild
    have hcond : ((tokAt toks i).type = .JSON_OBJECT ∨
        (tokAt toks i).type = .JSON_ARRAY ∨ (false = true)) := Or.inr (Or.inl harr)
    have hobj : ¬ (tokAt toks i).type = .JSON_OBJECT := by rw [harr]; intro h; cases h
    simp only [json_query_go]
    rw [if_pos hcond, if_neg (by simp : ¬ (false = true)), if_neg hobj, hparse]
    by_cases h1 : count ≤ i + 1
    · simp [h1]
    · by_cases h2 : arr1.len < 1
      · simp [h1, h2]
      · simp [h1, h2, hconv, hchild]
  · intro fuel toks count i p name arr oidx osize hnc hl hnc1
    have hcond : ¬((tokAt toks i).type = .JSON_OBJECT ∨
        (tokAt toks i).type = .JSON_ARRAY ∨ (false = true)) := by
      intro h
      rcases h with h | h | h
      · exact hnc (Or.inl h)
      · exact hnc (Or.inr h)
      · exact absurd h (by simp)
    simp only [json_query_go]
    rw [if_neg hcond, if_pos hl]
    by_cases h1 : count < i + 1
    · simp [h1]
    · simp [h1, hnc1]

/-- C4 witness: the three conditions at concrete states — cursor past
count; bracket index 0 into an Array token with children 0; a key match
whose value slot is not a container. -/
theorem c4_out_of_bounds_witness :
    json_query_go 1 [] 0 0 false none JSON_TOKEN_NULL JSON_TOKEN_NULL 0 0 = some none ∧
    json_query_go 1 [⟨.JSON_ARRAY, some [91], 1, 0, 0⟩] 1 0 false none
      ⟨.JSON_NONE, some [91, 48, 93], 3, 0, 0⟩ JSON_TOKEN_NULL 0 0 = some none ∧
    json_query_go 1 [⟨.JSON_NUMBER, some [120], 1, 0, 0⟩] 1 0 false (some [])
      ⟨.JSON_NONE, some [120], 1, 0, 0⟩ JSON_TOKEN_NULL 0 0 = some none :=
  ⟨c4_out_of_bounds.1 0 [] 0 0 none JSON_TOKEN_NULL JSON_TOKEN_NULL 0 0
      (by decide) (by decide),
   c4_out_of_bounds.2.1 0 _ 1 0 none _ JSON_TOKEN_NULL
      ⟨.JSON_NONE, some [48, 93], 1, 0, 0⟩ 0 0
      (by decide) (by decide) (by decide)
      (by norm_num [json_convert, json_convert_go, json_go_num, cpart_get, cpart_set,
        cpart_dist, json_stoi, json_stof, json_ipow, json_ipow_go, rat_trunc,
        JSON_TOKEN_NULL, List.range_succ, tokAt]),
   c4_out_of_bounds.2.2 0 _ 1 0 [] _ JSON_TOKEN_NULL 0 0
      (by decide) (by decide) (by decide)⟩
